import Mathlib

/-!
# PortablePDFscanner — verification of the capture pipeline model

Shallow embedding of the PDF-scanner application (`src/test_main_v2.py`,
`src/test_main.py`, `src/scanner.py`).  Frames are identified by natural
numbers; file names are lists of Unicode code points, matching how Python
compares strings (`sorted` is lexicographic on code points).  GUI calls
(status labels, canvases, message boxes) carry no session or document
state and are omitted; everything that the claims quantify over —
the frame queue, the pending candidate, the page counter, the captured
image list, the persisted page files, the auto-capture flags and the
Tk timer scheduler — is represented explicitly.
-/

namespace PDFScanner

/-- A frame is identified by a numeric id; pixel contents are modelled
separately (see `Img` below) where a claim depends on them. -/
abbrev Frame := Nat

/-! ## FramePipe: the one-slot frame queue

`test_main_v2.py` uses `queue.Queue(maxsize=1)` with the producer doing
`if not self.frame_queue.full(): self.frame_queue.put(frame)`
(lines 186-188) and the consumers doing an emptiness check followed by
`frame_queue.get(False)`.  A `maxsize=1` queue is a single slot, modelled
as `Option Frame`. -/

/-- Producer side (`camera_stream`, lines 186-188 of test_main_v2.py, and
lines 147-149 of test_main.py): the frame is put only when the queue is
not full, so an occupied slot keeps its old content and the incoming
frame is dropped. -/
def pipe_put (slot : Option Frame) (f : Frame) : Option Frame :=
  match slot with
  | none => some f
  | some g => some g

/-- Consumer side (`frame_queue.get(False)` guarded by an emptiness
check): returns the slot content, leaving the slot empty. First
component is the value obtained (none when the slot was empty), second
is the slot afterwards. -/
def pipe_take (slot : Option Frame) : Option Frame × Option Frame :=
  match slot with
  | none => (none, none)
  | some f => (some f, none)

/-! ## Application state

Fields of `PDFScannerApp.__init__` that participate in the claims.
`autoSaveTimer` models the Tk `after` scheduler holding an armed,
unfired `after(2000, self.auto_save)` callback registered by
`auto_capture`; nothing in the code ever calls `after_cancel` on it.
`savedFiles` lists the per-page files written so far, as paths relative
to the document output directory. -/
structure AppState where
  cameraActive : Bool
  frameQueue : Option Frame
  capturedImages : List Frame
  currentImage : Option Frame
  pagesScanned : Nat
  capturing : Bool
  autoMode : Bool
  autoSaveTimer : Bool
  savedFiles : List (List Nat)
  docName : List Nat
  deriving Repr, DecidableEq

/-- Code points of a string literal, for readable concrete file names. -/
def strCodes (s : String) : List Nat := s.toList.map Char.toNat

/-! ## File names: Python `f"-n:03d-"` formatting and lexicographic order -/

/-- Recursion worker for decimal digits: `fuel` only bounds the depth
and is always sufficient at the call sites below (the fuel-exhausted
base case is unreachable for `fuel ≥ n`, see `toDigitsAux_eq`). -/
def toDigitsAux : Nat → Nat → List Nat
  | 0, n => [48 + n]
  | fuel + 1, n =>
    if n < 10 then [48 + n]
    else toDigitsAux fuel (n / 10) ++ [48 + n % 10]

/-- Decimal digits of `n`, most significant first, as code points
(`ord '0' = 48`); the digit sequence produced by Python `str(n)`. -/
def toDigits (n : Nat) : List Nat := toDigitsAux n n

/-- Python `f"...:03d"`: the decimal digits zero-padded on the left to a
minimum width of 3. -/
def pad3 (n : Nat) : List Nat :=
  List.replicate (3 - (toDigits n).length) 48 ++ toDigits n

/-- Code points of ".pdf". -/
def pdfSuffix : List Nat := [46, 112, 100, 102]

/-- The per-page file name `f"-doc-_-index:03d-.pdf"` written by
`save_image` (test_main_v2.py line 316) and `process_and_save`
(scanner.py line 44), relative to the document output directory
(95 is the code point of the underscore). -/
def pagePath (doc : List Nat) (idx : Nat) : List Nat :=
  doc ++ [95] ++ pad3 idx ++ pdfSuffix

/-- Python string comparison: lexicographic on code points, a strict
prefix sorting before its extensions. -/
def lexLt : List Nat → List Nat → Bool
  | [], [] => false
  | [], _ :: _ => true
  | _ :: _, [] => false
  | a :: as, b :: bs => decide (a < b) || (decide (a = b) && lexLt as bs)

/-- Stable insertion of `x` into an already sorted list: `x` goes after
every strictly smaller element and after equal ones, as Python `sorted`
(a stable sort) would keep an earlier-listed element first. -/
def insertLex (x : List Nat) : List (List Nat) → List (List Nat)
  | [] => [x]
  | y :: ys => if lexLt y x then y :: insertLex x ys else x :: y :: ys

/-- `sorted(...)` over file names: stable lexicographic sort. -/
def sortLex : List (List Nat) → List (List Nat)
  | [] => []
  | x :: xs => insertLex x (sortLex xs)

/-- Python `f.endswith(".pdf")`: the last four code points are ".pdf"
(false for names shorter than four). -/
def endsWithPdf (l : List Nat) : Bool :=
  decide (l.drop (l.length - 4) = pdfSuffix)

/-- Strategy A gathering step shared by `SimpleDocumentScanner.merge_pdfs`
(scanner.py line 74) and `PDFScannerApp.export_pdf`
(test_main_v2.py line 461):
`sorted([f for f in os.listdir(self.output_dir) if f.endswith('.pdf')])`.
`listing` is the directory listing of the document output directory. -/
def merge_gather (listing : List (List Nat)) : List (List Nat) :=
  sortLex (listing.filter endsWithPdf)

/-! ## Session operations (test_main_v2.py) -/

/-- Failure outcomes of `capture_image`: the camera-inactive message box
(line 253) and the "No frame available" exception (line 270). The code
has no busy/pending-candidate failure. -/
inductive CaptureErr
  | cameraInactive
  | noFrame
  deriving Repr, DecidableEq

/-- `PDFScannerApp.capture_image` (test_main_v2.py lines 250-279).
`picamStill` is `some f` when `USING_PICAMERA` and the high-resolution
still read at line 261 is `f`; `none` selects the OpenCV fallback path
that drains the frame queue (lines 266-270).  Either way the captured
frame is stored as the candidate (line 272) with no check whether a
candidate is already pending. -/
def capture_image (picamStill : Option Frame) (s : AppState) :
    Except CaptureErr AppState :=
  if s.cameraActive = false then Except.error CaptureErr.cameraInactive
  else
    match picamStill with
    | some f => Except.ok { s with currentImage := some f }
    | none =>
      match s.frameQueue with
      | some f => Except.ok { s with currentImage := some f, frameQueue := none }
      | none => Except.error CaptureErr.noFrame

/-- `PDFScannerApp.save_image` (test_main_v2.py lines 302-332).
`writeOk` is the outcome of the page write `save_as_pdf(...)` at
line 317; when it raises, the handler at line 331 only sets the status
text, after the list append (line 312) and the counter increment
(line 315) have already happened, and before the candidate is cleared
(line 324). -/
def save_image (writeOk : Bool) (s : AppState) : AppState :=
  match s.currentImage with
  | none => s
  | some img =>
    let s1 : AppState :=
      { s with capturedImages := s.capturedImages ++ [img],
               pagesScanned := s.pagesScanned + 1 }
    if writeOk then
      { s1 with savedFiles := s1.savedFiles ++ [pagePath s1.docName s1.pagesScanned],
                currentImage := none,
                capturing := if s1.autoMode then false else s1.capturing }
    else s1

/-- `PDFScannerApp.cancel_capture` (test_main_v2.py lines 345-360):
clears the candidate; resumes auto capturing when in auto mode. The
page list and counter are untouched. -/
def cancel_capture (s : AppState) : AppState :=
  match s.currentImage with
  | none => s
  | some _ =>
    { s with currentImage := none,
             capturing := if s.autoMode then false else s.capturing }

/-- `PDFScannerApp.toggle_auto_mode` (test_main_v2.py lines 362-372):
flips the flag; resets `capturing` only when turning auto mode on. It
does not touch any scheduled `auto_save` callback. -/
def toggle_auto_mode (s : AppState) : AppState :=
  if !s.autoMode then { s with autoMode := true, capturing := false }
  else { s with autoMode := false }

/-- The auto-mode poll inside `camera_stream`
(test_main_v2.py lines 193-196): when auto mode is on and no cycle is in
flight, mark a cycle in flight (the code then schedules
`after(100, self.auto_capture)`). -/
def stream_auto_check (s : AppState) : AppState :=
  if s.autoMode && !s.capturing then { s with capturing := true } else s

/-- `PDFScannerApp.auto_capture` (test_main_v2.py lines 374-397):
abandons the cycle when auto mode or the camera is off; otherwise pulls
a frame (still image under picamera, else the queue), stores it as the
candidate and schedules `after(2000, self.auto_save)` — modelled by
arming `autoSaveTimer`. -/
def auto_capture (picamStill : Option Frame) (s : AppState) : AppState :=
  if !s.autoMode || !s.cameraActive then { s with capturing := false }
  else
    match picamStill with
    | some f => { s with currentImage := some f, autoSaveTimer := true }
    | none =>
      match s.frameQueue with
      | some f =>
        { s with currentImage := some f, frameQueue := none, autoSaveTimer := true }
      | none => { s with capturing := false }

/-- `PDFScannerApp.auto_save` (test_main_v2.py lines 399-402): commit
via `save_image` only when a candidate is still pending. -/
def auto_save (writeOk : Bool) (s : AppState) : AppState :=
  match s.currentImage with
  | none => s
  | some _ => save_image writeOk s

/-- The Tk scheduler firing the armed `after(2000, self.auto_save)`
callback: it runs `auto_save` exactly when the callback is still
registered, unregistering it. Nothing in the code cancels the callback,
so disabling auto mode leaves it armed. -/
def timer_fire (writeOk : Bool) (s : AppState) : AppState :=
  if s.autoSaveTimer then auto_save writeOk { s with autoSaveTimer := false }
  else s

/-! ## Export (test_main_v2.py lines 428-466) -/

/-- Outcome of `export_pdf`: the "No images to export" message box
(line 431), the user cancelling the save dialog (line 442), or a merged
file written at the chosen path. -/
inductive ExportOutcome
  | noImages
  | cancelled
  | written (path : List Nat)
  deriving Repr, DecidableEq

/-- `PDFScannerApp.export_pdf` (test_main_v2.py lines 428-466), at the
granularity of which files it creates: the empty-document guard at
line 430 returns before any dialog or write; a cancelled dialog writes
nothing; otherwise one merged output file is written at the chosen path
(by PyPDF2 at line 466 or by the reportlab fallback at line 522).
The second component lists the files created by the call. -/
def export_pdf (filename : Option (List Nat)) (s : AppState) :
    ExportOutcome × List (List Nat) :=
  if s.capturedImages.isEmpty && s.pagesScanned == 0 then
    (ExportOutcome.noImages, [])
  else
    match filename with
    | none => (ExportOutcome.cancelled, [])
    | some f => (ExportOutcome.written f, [f])

/-! ## Pixel-level model of `save_as_pdf` (test_main_v2.py lines 334-343) -/

/-- An image as numpy exposes it to the code: rows of pixels, each pixel
a list of channel values (the ndarray has a uniform channel count;
`shape[2]` is read off the first pixel here). -/
abbrev Img := List (List (List Nat))

/-- `image_array[r, c, k]`. -/
def pixelCh (img : Img) (r c k : Nat) : Nat :=
  (((img.getD r []).getD c []).getD k 0)

/-- `image_array.shape[2]`, the channel count. -/
def numChannels (img : Img) : Nat :=
  ((img.getD 0 []).getD 0 []).length

/-- `cv2.cvtColor(_, cv2.COLOR_BGR2RGB)` on a 3-channel image: swap
channels 0 and 2 of every pixel, i.e. reverse each 3-element pixel. -/
def bgr2rgb (img : Img) : Img :=
  img.map (fun row => row.map (fun px => px.reverse))

/-- The conversion step of `PDFScannerApp.save_as_pdf`
(test_main_v2.py lines 337-340): for a 3-channel image, reverse the
channel order of the whole image exactly when channel 0 of the pixel at
row 0, column 0 is strictly greater than channel 2 of that pixel. -/
def save_as_pdf_convert (img : Img) : Img :=
  if numChannels img = 3 ∧ pixelCh img 0 0 2 < pixelCh img 0 0 0 then bgr2rgb img
  else img

/-! ## Two-thread model of camera shutdown (test_main_v2.py) -/

/-- Program counter of the acquisition thread running
`camera_stream` (test_main_v2.py lines 170-201): about to test the
`while` condition, about to deliver an already-read frame into the
queue, or exited. -/
inductive CamPC
  | checkFlags
  | deliver
  | exited
  deriving Repr, DecidableEq

/-- Joint state of the consumer thread and the acquisition thread:
the shared flags (`camera_active`, `stop_event`), the camera resource,
the frame queue slot, the acquisition-thread program counter, and
whether `stop_camera` has returned. -/
structure SysState where
  cameraActive : Bool
  stopEvent : Bool
  cameraOpen : Bool
  pipe : Option Frame
  camPC : CamPC
  stopReturned : Bool
  deriving Repr, DecidableEq

/-- `PDFScannerApp.stop_camera` (test_main_v2.py lines 227-248), run to
completion on the consumer thread: the early return when the camera is
already inactive, else clear the active flag, set the stop event and
release the camera. The function never joins `camera_thread`. -/
def stop_camera (s : SysState) : SysState :=
  if s.cameraActive = false then { s with stopReturned := true }
  else
    { s with cameraActive := false, stopEvent := true, cameraOpen := false,
             stopReturned := true }

/-- One step of the acquisition thread (`camera_stream`): at the `while`
test it proceeds into the body exactly when `camera_active` holds and
the stop event is unset (line 172); inside the body it delivers the
frame it read into the queue via the guarded put (lines 186-188) and
loops. `f` is the frame read in the current iteration. -/
def cam_step (f : Frame) (s : SysState) : SysState :=
  match s.camPC with
  | CamPC.checkFlags =>
    if s.cameraActive && !s.stopEvent then { s with camPC := CamPC.deliver }
    else { s with camPC := CamPC.exited }
  | CamPC.deliver => { s with pipe := pipe_put s.pipe f, camPC := CamPC.checkFlags }
  | CamPC.exited => s

/-! ## Concrete states used by witnesses and counterexamples -/

/-- An idle session with the camera running, no pending candidate and an
empty document. -/
def baseState : AppState :=
  { cameraActive := true, frameQueue := none, capturedImages := [],
    currentImage := none, pagesScanned := 0, capturing := false,
    autoMode := false, autoSaveTimer := false, savedFiles := [],
    docName := strCodes "Document" }

/-- A running system just before shutdown: acquisition thread at the
`while` test, queue empty. -/
def sys0 : SysState :=
  { cameraActive := true, stopEvent := false, cameraOpen := true,
    pipe := none, camPC := CamPC.checkFlags, stopReturned := false }

/-- A busy session: candidate frame 5 pending, frame 7 in the queue. -/
def busyState : AppState :=
  { baseState with currentImage := some 5, frameQueue := some 7 }

/-- A session with candidate frame 5 pending and an empty queue. -/
def pendingState : AppState :=
  { baseState with currentImage := some 5 }

/-- A session in auto mode with the auto-save timer armed and candidate
frame 5 pending. -/
def armedState : AppState :=
  { baseState with autoMode := true, autoSaveTimer := true, currentImage := some 5 }

/-- The base session with frame 7 waiting in the queue. -/
def queuedState : AppState :=
  { baseState with frameQueue := some 7 }

/-- The state after a successful capture from `queuedState`: frame 7
became the candidate and the queue was drained. -/
def capturedState : AppState :=
  { baseState with currentImage := some 7, frameQueue := none }

/-! ## Helper lemmas on lexicographic order, sorting, and zero padding -/

theorem lexLt_self (l : List Nat) : lexLt l l = false := by
  induction l with
  | nil => rfl
  | cons x xs ih => simp [lexLt, ih]

theorem lexLt_asymm (a b : List Nat) (h : lexLt a b = true) : lexLt b a = false := by
  induction a generalizing b with
  | nil =>
    cases b with
    | nil => simp [lexLt] at h
    | cons y ys => rfl
  | cons x xs ih =>
    cases b with
    | nil => simp [lexLt] at h
    | cons y ys =>
      simp only [lexLt, Bool.or_eq_true, Bool.and_eq_true, decide_eq_true_eq] at h ⊢
      rcases h with h | ⟨hxy, hlt⟩
      · simp only [Bool.or_eq_false_iff, Bool.and_eq_false_iff, decide_eq_false_iff_not]
        exact ⟨by omega, Or.inl (by omega)⟩
      · subst hxy
        simp [Nat.lt_irrefl, ih ys hlt]

theorem lexLt_append_same (p a b : List Nat) :
    lexLt (p ++ a) (p ++ b) = lexLt a b := by
  induction p with
  | nil => rfl
  | cons x xs ih => simp [lexLt, ih]

/-- The fuel argument of `toDigitsAux` is irrelevant as long as it is
at least the value whose digits are taken. -/
theorem toDigitsAux_eq (n : Nat) : ∀ f : Nat, n ≤ f → toDigitsAux f n = toDigitsAux n n := by
  induction n using Nat.strong_induction_on with
  | _ n ih =>
    intro f hf
    cases f with
    | zero =>
      have hn : n = 0 := by omega
      subst hn
      rfl
    | succ g =>
      cases n with
      | zero => simp [toDigitsAux]
      | succ m =>
        by_cases h10 : m + 1 < 10
        · simp [toDigitsAux, h10]
        · have h1 : (m + 1) / 10 ≤ g := by omega
          have h2 : (m + 1) / 10 ≤ m := by omega
          simp only [toDigitsAux, if_neg h10]
          rw [ih ((m + 1) / 10) (by omega) g h1, ih ((m + 1) / 10) (by omega) m h2]

theorem toDigits_lt10 (n : Nat) (h : n < 10) : toDigits n = [48 + n] := by
  cases n with
  | zero => rfl
  | succ m => simp [toDigits, toDigitsAux, h]

theorem toDigits_ge10 (n : Nat) (h : 10 ≤ n) :
    toDigits n = toDigits (n / 10) ++ [48 + n % 10] := by
  cases n with
  | zero => omega
  | succ m =>
    show toDigitsAux (m + 1) (m + 1) = _
    simp only [toDigitsAux, if_neg (by omega : ¬ m + 1 < 10)]
    rw [toDigitsAux_eq ((m + 1) / 10) m (by omega)]
    rfl

/-- For indices below 1000 the padded name is exactly the three decimal
digits, as code points. -/
theorem pad3_eq (n : Nat) (h : n < 1000) :
    pad3 n = [48 + n / 100, 48 + n / 10 % 10, 48 + n % 10] := by
  by_cases h1 : n < 10
  · have hd := toDigits_lt10 n h1
    simp only [pad3, hd, List.length_cons, List.length_nil]
    have e1 : n / 100 = 0 := by omega
    have e2 : n / 10 % 10 = 0 := by omega
    have e3 : n % 10 = n := by omega
    simp [e1, e2, e3, List.replicate]
  · by_cases h2 : n < 100
    · have hd1 := toDigits_ge10 n (by omega)
      have hd2 := toDigits_lt10 (n / 10) (by omega)
      rw [hd2] at hd1
      simp only [pad3, hd1, List.length_append, List.length_cons, List.length_nil]
      have e1 : n / 100 = 0 := by omega
      have e2 : n / 10 % 10 = n / 10 := by omega
      simp [e1, e2, List.replicate]
    · have hd1 := toDigits_ge10 n (by omega)
      have hd2 := toDigits_ge10 (n / 10) (by omega)
      have hd3 := toDigits_lt10 (n / 10 / 10) (by omega)
      rw [hd2, hd3] at hd1
      simp only [pad3, hd1, List.length_append, List.length_cons, List.length_nil]
      have e1 : n / 10 / 10 = n / 100 := by omega
      have e2 : n / 10 % 10 = n / 10 % 10 := rfl
      simp [e1, List.replicate]

/-- Zero-padded decimal file-name components compare lexicographically
as their numeric values do, for values below 1000, under any common
suffix. -/
theorem lexLt_pad3 (i j : Nat) (hij : i < j) (hj : j < 1000) (s : List Nat) :
    lexLt (pad3 i ++ s) (pad3 j ++ s) = true := by
  rw [pad3_eq i (by omega), pad3_eq j hj]
  simp only [List.cons_append, List.nil_append, lexLt, lexLt_self,
    Bool.or_eq_true, Bool.and_eq_true, decide_eq_true_eq, Bool.and_false]
  omega

theorem endsWithPdf_append (xs : List Nat) : endsWithPdf (xs ++ pdfSuffix) = true := by
  have hlen : (xs ++ pdfSuffix).length = xs.length + 4 := by
    simp [pdfSuffix]
  simp only [endsWithPdf, hlen, Nat.add_sub_cancel, decide_eq_true_eq]
  exact List.drop_left xs pdfSuffix

theorem pagePath_assoc (doc : List Nat) (i : Nat) :
    pagePath doc i = (doc ++ [95] ++ pad3 i) ++ pdfSuffix := by
  simp [pagePath, List.append_assoc]

theorem endsWithPdf_pagePath (doc : List Nat) (i : Nat) :
    endsWithPdf (pagePath doc i) = true := by
  rw [pagePath_assoc]
  exact endsWithPdf_append _

/-- Page paths of the same document compare as their indices do, for
indices below 1000. -/
theorem lexLt_pagePath (doc : List Nat) (i j : Nat) (hij : i < j) (hj : j < 1000) :
    lexLt (pagePath doc i) (pagePath doc j) = true := by
  have e : ∀ k, pagePath doc k = (doc ++ [95]) ++ (pad3 k ++ pdfSuffix) := by
    intro k
    simp [pagePath, List.append_assoc]
  rw [e i, e j, lexLt_append_same]
  exact lexLt_pad3 i j hij hj pdfSuffix

/-- A list already strictly sorted by `lexLt` is left unchanged by
`sortLex`. -/
theorem sortLex_of_pairwise (l : List (List Nat))
    (h : l.Pairwise (fun a b => lexLt a b = true)) : sortLex l = l := by
  induction l with
  | nil => rfl
  | cons x xs ih =>
    rw [List.pairwise_cons] at h
    rw [sortLex, ih h.2]
    cases xs with
    | nil => rfl
    | cons y ys =>
      have hxy : lexLt x y = true := h.1 y (by simp)
      simp [insertLex, lexLt_asymm x y hxy]

/-! ## Claim C1 — FramePipe backpressure direction -/

/-- Claim C1, counterexample. The claim states that a `put` on an
occupied pipe replaces the existing content (drop-oldest) and that a
subsequent non-empty `take` returns the most recently put frame. On the
code, putting frame 2 into a pipe occupied by frame 1 leaves frame 1 in
the slot, and the next `take` returns frame 1, not the most recently
put frame 2. -/
theorem C1_counterexample :
    pipe_put (some 1) 2 = some 1 ∧
    (pipe_take (pipe_put (some 1) 2)).1 = some 1 ∧ (1 : Frame) ≠ 2 := by
  decide

/-- Claim C1, amended: `put(frame)` on an occupied FramePipe never
blocks the producer (the put is simply skipped when the slot is full),
the existing content is kept and the new frame is dropped
(drop-newest), and a subsequent non-empty `take()` returns the retained
oldest frame. -/
theorem C1_amended (g f : Frame) :
    pipe_put (some g) f = some g ∧
    (pipe_take (pipe_put (some g) f)).1 = some g := by
  simp [pipe_put, pipe_take]

/-! ## Claim C2 — capture while a candidate is pending -/

/-- Claim C2, counterexample. The claim states that `capture()` with a
pending candidate fails with `SessionBusyError` and leaves the
candidate unchanged. On the code, with candidate frame 5 pending and
frame 7 in the queue, `capture_image` succeeds (no error of any kind)
and the candidate becomes frame 7. -/
theorem C2_counterexample :
    capture_image none busyState = Except.ok capturedState ∧
    capturedState.currentImage ≠ busyState.currentImage :=
  ⟨rfl, by decide⟩

/-- Claim C2, amended: with the camera active, `capture()` while a
candidate is pending does not fail and does not enforce any
at-most-one-pending invariant by rejection; it succeeds and silently
replaces the pending candidate with the newly captured frame. -/
theorem C2_amended (s : AppState) (c f : Frame) (h1 : s.cameraActive = true)
    (_h2 : s.currentImage = some c) (h3 : s.frameQueue = some f) :
    capture_image none s =
      Except.ok { s with currentImage := some f, frameQueue := none } := by
  simp [capture_image, h1, h3]

/-- Witness for `C2_amended` at a concrete busy state. -/
theorem C2_amended_witness :
    capture_image none busyState =
      Except.ok { busyState with currentImage := some 7, frameQueue := none } :=
  C2_amended busyState 5 7 rfl rfl rfl

/-! ## Claim C3 — failed page write during commit -/

/-- Claim C3, counterexample. The claim states that when the page write
fails, the in-memory page sequence (page count and indices) is exactly
what it was before the call. On the code, committing candidate frame 5
from the empty document with a failing write leaves the page counter at
1 and the in-memory list at `[5]`, although both were empty before. -/
theorem C3_counterexample :
    (save_image false pendingState).pagesScanned = 1 ∧
    (save_image false pendingState).capturedImages = [5] ∧
    pendingState.pagesScanned = 0 ∧ pendingState.capturedImages = [] := by
  decide

/-- Claim C3, amended: when the page write performed by commit fails,
no file is persisted and the candidate is not cleared (it stays pending
and a retry is possible), but the in-memory list and the page counter
have already been advanced before the write and are not rolled back, so
the in-memory sequence does change. -/
theorem C3_amended (s : AppState) (c : Frame) (h : s.currentImage = some c) :
    (save_image false s).savedFiles = s.savedFiles ∧
    (save_image false s).currentImage = some c ∧
    (save_image false s).capturedImages = s.capturedImages ++ [c] ∧
    (save_image false s).pagesScanned = s.pagesScanned + 1 := by
  simp [save_image, h]

/-- Witness for `C3_amended` at a concrete pending state. -/
theorem C3_amended_witness :
    (save_image false pendingState).savedFiles = pendingState.savedFiles ∧
    (save_image false pendingState).currentImage = some 5 ∧
    (save_image false pendingState).capturedImages =
      pendingState.capturedImages ++ [5] ∧
    (save_image false pendingState).pagesScanned = pendingState.pagesScanned + 1 :=
  C3_amended pendingState 5 rfl

/-! ## Claim C4 — disabling auto mode before the timer fires -/

/-- Claim C4, counterexample. The claim states that disabling auto mode
before the first auto-commit timer fires prevents the timer from firing
and yields zero additional commits. On the code, the trace
enable auto → camera-stream poll → `auto_capture` (candidate stored,
2-second `auto_save` callback armed) → disable auto → timer fires,
leaves the callback armed at the moment disabling returns and commits
one page: the page count grows from 0 to 1. -/
theorem C4_counterexample :
    (toggle_auto_mode (auto_capture none
        (stream_auto_check (toggle_auto_mode queuedState)))).autoMode = false ∧
    (toggle_auto_mode (auto_capture none
        (stream_auto_check (toggle_auto_mode queuedState)))).autoSaveTimer = true ∧
    (timer_fire true (toggle_auto_mode (auto_capture none
        (stream_auto_check (toggle_auto_mode queuedState))))).pagesScanned = 1 ∧
    queuedState.pagesScanned = 0 := by
  decide

/-- Claim C4, amended: `disable_auto()` does not cancel the armed
auto-save timer — the callback stays registered when the call returns —
and when the timer later fires with a candidate still pending, the
candidate is committed: the document receives exactly one additional
commit, and the candidate is not left for manual handling. -/
theorem C4_amended (s : AppState) (c : Frame) (h1 : s.autoMode = true)
    (h2 : s.autoSaveTimer = true) (h3 : s.currentImage = some c) :
    (toggle_auto_mode s).autoSaveTimer = true ∧
    (timer_fire true (toggle_auto_mode s)).pagesScanned = s.pagesScanned + 1 ∧
    (timer_fire true (toggle_auto_mode s)).currentImage = none := by
  simp [toggle_auto_mode, h1, timer_fire, h2, auto_save, h3, save_image]

/-- Witness for `C4_amended` at a concrete armed state. -/
theorem C4_amended_witness :
    (toggle_auto_mode armedState).autoSaveTimer = true ∧
    (timer_fire true (toggle_auto_mode armedState)).pagesScanned =
      armedState.pagesScanned + 1 ∧
    (timer_fire true (toggle_auto_mode armedState)).currentImage = none :=
  C4_amended armedState 5 rfl rfl rfl

/-! ## Claim C5 — stop() idempotence and thread join -/

/-- Claim C5, counterexample. The claim states that `stop()` guarantees
the acquisition thread has fully exited before returning, so no frame
is delivered into the pipe after shutdown. On the code, let the
acquisition thread pass the while-condition check, then run
`stop_camera` to completion: the call has returned, yet the thread has
not exited and its next step delivers frame 7 into the pipe. -/
theorem C5_counterexample :
    (stop_camera (cam_step 7 sys0)).stopReturned = true ∧
    (stop_camera (cam_step 7 sys0)).camPC ≠ CamPC.exited ∧
    (stop_camera (cam_step 7 sys0)).pipe = none ∧
    (cam_step 7 (stop_camera (cam_step 7 sys0))).pipe = some 7 := by
  decide

/-- Claim C5, amended: `stop()` is idempotent — a second call makes no
further state change — but it does not join the acquisition thread
before returning; the thread only exits at its next while-condition
check (at which point the cleared flags stop it), and a frame it had
already read may still be delivered into the pipe after `stop()` has
returned. -/
theorem C5_amended :
    (∀ s : SysState, stop_camera (stop_camera s) = stop_camera s) ∧
    (∀ (s : SysState) (f : Frame), (stop_camera s).camPC = CamPC.checkFlags →
      (cam_step f (stop_camera s)).camPC = CamPC.exited) := by
  constructor
  · intro s
    by_cases h : s.cameraActive = false <;> simp [stop_camera, h]
  · intro s f h
    have hpc : s.camPC = CamPC.checkFlags := by
      by_cases hc : s.cameraActive = false <;> simpa [stop_camera, hc] using h
    by_cases hc : s.cameraActive = false <;> simp [stop_camera, hc, cam_step, hpc]

/-- Witness for `C5_amended` at the concrete running system. -/
theorem C5_amended_witness :
    stop_camera (stop_camera sys0) = stop_camera sys0 ∧
    (cam_step 7 (stop_camera sys0)).camPC = CamPC.exited :=
  ⟨C5_amended.1 sys0, C5_amended.2 sys0 7 rfl⟩

/-! ## Claim C6 — Strategy A gathering and ordering -/

/-- Claim C6, counterexample. The claim states that Strategy A gathers
exactly the N per-page files of the document. On the code, the gather
step takes every file of the output directory ending in ".pdf"; after a
previous assembly has written `Document_complete.pdf` into that same
directory (as `merge_pdfs` does), a document with one committed page
yields a gathered list of two files, the second of which is not a page
file. -/
theorem C6_counterexample :
    merge_gather [strCodes "Document_001.pdf", strCodes "Document_complete.pdf"] =
      [pagePath (strCodes "Document") 1, strCodes "Document_complete.pdf"] ∧
    merge_gather [strCodes "Document_001.pdf", strCodes "Document_complete.pdf"] ≠
      [pagePath (strCodes "Document") 1] := by
  decide

/-- Claim C6, amended: Strategy A gathers every file of the output
directory whose name ends in ".pdf" (which can include a previously
assembled output) sorted lexicographically by filename; when the
directory holds exactly the per-page files of the document, with
indices 1..N and N at most 999, this gathered list is exactly the N
page files in ascending sequence order (for indices of four or more
digits the zero padding to width 3 no longer makes lexicographic and
numeric order coincide). -/
theorem C6_amended (doc : List Nat) (N : Nat) (hN : N ≤ 999) :
    merge_gather ((List.range' 1 N).map (pagePath doc)) =
      (List.range' 1 N).map (pagePath doc) := by
  have hfilter : ((List.range' 1 N).map (pagePath doc)).filter endsWithPdf =
      (List.range' 1 N).map (pagePath doc) := by
    apply List.filter_eq_self.mpr
    intro a ha
    rcases List.mem_map.mp ha with ⟨i, _, rfl⟩
    exact endsWithPdf_pagePath doc i
  have hpair : ((List.range' 1 N).map (pagePath doc)).Pairwise
      (fun a b => lexLt a b = true) := by
    rw [List.pairwise_map]
    have hlt : (List.range' 1 N).Pairwise (· < ·) := List.pairwise_lt_range' 1 N
    apply List.Pairwise.imp_of_mem _ hlt
    intro i j hi hj hij
    have hjb : j < 1 + N := (List.mem_range'_1.mp hj).2
    exact lexLt_pagePath doc i j hij (by omega)
  rw [merge_gather, hfilter, sortLex_of_pairwise _ hpair]

/-- Witness for `C6_amended`: a three-page document gathers its three
page files in ascending order. -/
theorem C6_amended_witness :
    merge_gather ((List.range' 1 3).map (pagePath (strCodes "Document"))) =
      (List.range' 1 3).map (pagePath (strCodes "Document")) :=
  C6_amended (strCodes "Document") 3 (by decide)

/-! ## Claim C7 — export of an empty document -/

/-- Claim C7: for a document with zero committed pages (no in-memory
captures and a zero page counter), `export_pdf` reports the
empty-document outcome and creates no file, before any dialog or
write. -/
theorem C7_export_empty (filename : Option (List Nat)) (s : AppState)
    (h1 : s.capturedImages = []) (h2 : s.pagesScanned = 0) :
    export_pdf filename s = (ExportOutcome.noImages, []) := by
  simp [export_pdf, h1, h2]

/-- Witness for `C7_export_empty` at the empty base document. -/
theorem C7_export_empty_witness :
    export_pdf none baseState = (ExportOutcome.noImages, []) :=
  C7_export_empty none baseState rfl rfl

/-! ## Claim C8 — cancel discards the candidate without touching the document -/

/-- Claim C8: whenever `capture()` succeeds, following it with
`cancel()` discards the candidate (the session returns to the
no-pending-candidate state) and leaves the document untouched: the
captured-page list and the page counter equal their values before the
capture. -/
theorem C8_cancel_after_capture (still : Option Frame) (s t : AppState)
    (h : capture_image still s = Except.ok t) :
    (cancel_capture t).capturedImages = s.capturedImages ∧
    (cancel_capture t).pagesScanned = s.pagesScanned ∧
    (cancel_capture t).currentImage = none := by
  by_cases hc : s.cameraActive = false
  · simp [capture_image, hc] at h
  · cases still with
    | some f =>
      simp only [capture_image, hc, if_false] at h
      cases h
      simp [cancel_capture]
    | none =>
      cases hq : s.frameQueue with
      | some f =>
        simp only [capture_image, hc, if_false, hq] at h
        cases h
        simp [cancel_capture]
      | none => simp [capture_image, hc, hq] at h

/-- Witness for `C8_cancel_after_capture` at a concrete capture. -/
theorem C8_cancel_after_capture_witness :
    (cancel_capture capturedState).capturedImages = queuedState.capturedImages ∧
    (cancel_capture capturedState).pagesScanned = queuedState.pagesScanned ∧
    (cancel_capture capturedState).currentImage = none :=
  C8_cancel_after_capture none queuedState capturedState rfl

/-! ## Claim C9 — pixel-dependent channel reversal in save_as_pdf -/

/-- Claim C9: `save_as_pdf` reverses the channel order of the whole
3-channel image exactly when channel 0 of the pixel at row 0, column 0
strictly exceeds channel 2 of that pixel, so two frames that differ
only in that one pixel can be persisted with globally different channel
orders: the concrete frames below differ only at pixel (0,0), yet the
persisted content differs at pixel (0,1), where one keeps [10,20,30]
and the other stores [30,20,10]. -/
theorem C9_channel_reversal :
    (∀ img : Img, numChannels img = 3 → pixelCh img 0 0 2 < pixelCh img 0 0 0 →
      save_as_pdf_convert img = bgr2rgb img) ∧
    (∀ img : Img, ¬ pixelCh img 0 0 2 < pixelCh img 0 0 0 →
      save_as_pdf_convert img = img) ∧
    (save_as_pdf_convert [[[1, 5, 2], [10, 20, 30]]] = [[[1, 5, 2], [10, 20, 30]]] ∧
      save_as_pdf_convert [[[3, 5, 2], [10, 20, 30]]] = [[[2, 5, 3], [30, 20, 10]]]) := by
  refine ⟨?_, ?_, by decide⟩
  · intro img h3 hlt
    simp [save_as_pdf_convert, h3, hlt]
  · intro img hge
    simp [save_as_pdf_convert, hge]

/-- Witness for `C9_channel_reversal` at a concrete one-pixel image
with dominant channel 0. -/
theorem C9_channel_reversal_witness :
    save_as_pdf_convert [[[9, 0, 1]]] = bgr2rgb [[[9, 0, 1]]] :=
  C9_channel_reversal.1 [[[9, 0, 1]]] (by decide) (by decide)

/-! ## Claim C10 — timer firing with no pending candidate -/

/-- Claim C10: the auto-save callback run by the timer commits only
when a candidate is still pending at fire time; if the candidate was
cancelled or already committed beforehand (no pending candidate), the
firing performs no commit and leaves the whole session and document
state unchanged. -/
theorem C10_auto_save_no_candidate (writeOk : Bool) (s : AppState)
    (h : s.currentImage = none) : auto_save writeOk s = s := by
  simp [auto_save, h]

/-- Witness for `C10_auto_save_no_candidate` at the idle base state. -/
theorem C10_auto_save_no_candidate_witness :
    auto_save true baseState = baseState :=
  C10_auto_save_no_candidate true baseState rfl

end PDFScanner
